import Mathlib

/-!
Shallow embedding of the Composio JS SDK modules
`js/src/sdk/models/connectedAccounts.ts` and `js/src/sdk/models/apps.ts`.

Each public SDK method is modelled as a pure function from its input
payload plus an oracle of backend responses to a pair
`(trace of observable events, result)`.  The trace records, in program
order, the telemetry emissions, schema-validation calls and network
requests the method performs; the result is `Except SDKError α`, with
`SDKError.validation` modelling a structured zod validation error and
`SDKError.err` a thrown `Error(msg)` (both are normalised by
`CEG.handleAllError` before reaching the caller, which the model keeps
as the identity on this abstraction).
-/

/-- JavaScript truthiness of a `string | undefined` value: `undefined`
(`none`) and the empty string are falsy, every other string is truthy. -/
def truthy : Option String → Bool
  | none => false
  | some s => !(s == "")

/-- Observable actions of an SDK method, in program order.  A telemetry
event carries the method name, the originating module file and a rendering
of the call parameters, mirroring
`TELEMETRY_LOGGER.manualTelemetry(SDK_METHOD_INVOKED, \x7bmethod, file, params\x7d)`. -/
inductive Event where
  | telemetry (method : String) (file : String) (params : List String)
  | validate (schema : String)
  | network (endpoint : String)
deriving DecidableEq, Repr

/-- Errors surfaced to the caller after `CEG.handleAllError` normalisation:
a structured schema-validation failure, or a thrown `Error(msg)`. -/
inductive SDKError where
  | validation (schema : String)
  | err (msg : String)
deriving DecidableEq, Repr

/-- Module identifier emitted by every `ConnectedAccounts` telemetry event. -/
def connectedAccountsFile : String := "js/src/sdk/models/connectedAccounts.ts"

/-- Module identifier emitted by every `Apps` telemetry event. -/
def appsFile : String := "js/src/sdk/models/apps.ts"

/-! ## Apps (`js/src/sdk/models/apps.ts`, given as `src/unnamed/part_000`) -/

/-- One field of an auth scheme as consumed by `Apps.getRequiredParams`:
`\x7bname, required, expected_from_customer\x7d`. -/
structure SchemeField where
  name : String
  required : Bool
  expected_from_customer : Bool
deriving DecidableEq, Repr

/-- One auth scheme of an app: `\x7bmode, fields\x7d`. -/
structure AuthScheme where
  mode : String
  fields : List SchemeField
deriving DecidableEq, Repr

/-- The slice of a `GET /apps/:appName` response used by the SDK:
`appId` (read through a non-null assertion in `initiate`) and
`auth_schemes`. -/
structure AppItem where
  appId : Option String
  auth_schemes : List AuthScheme
deriving DecidableEq, Repr

/-- Per-scheme bucket summary `\x7brequired_fields, optional_fields,
expected_from_user\x7d` built by `Apps.getRequiredParams`. -/
structure RequiredParamsResponse where
  required_fields : List String
  optional_fields : List String
  expected_from_user : List String
deriving DecidableEq, Repr

/-- Result shape of `Apps.getRequiredParams`:
`\x7bavailableAuthSchemes, authSchemes\x7d`, the latter a string-keyed
object modelled as an ordered association list. -/
structure RequiredParamsFullResponse where
  availableAuthSchemes : List String
  authSchemes : List (String × RequiredParamsResponse)
deriving DecidableEq, Repr

/-- The field-classification loop of `Apps.getRequiredParams`
(`scheme.fields.forEach(...)`): a field with
`expected_from_customer === false` goes to `expected_from_user` when
`required` and to `optional_fields` otherwise; every other field goes to
`required_fields`.  Processing the head first and prepending to the
classification of the tail reproduces the push order of the source. -/
def classifyFields : List SchemeField → RequiredParamsResponse
  | [] => { required_fields := [], optional_fields := [], expected_from_user := [] }
  | f :: rest =>
    let acc := classifyFields rest
    if f.expected_from_customer == false then
      if f.required then
        { acc with expected_from_user := f.name :: acc.expected_from_user }
      else
        { acc with optional_fields := f.name :: acc.optional_fields }
    else
      { acc with required_fields := f.name :: acc.required_fields }

/-- JavaScript object assignment `obj[k] = v` on a string-keyed object
modelled as an ordered association list: replaces the value at an existing
key, otherwise appends the new entry. -/
def setKey (l : List (String × RequiredParamsResponse)) (k : String)
    (v : RequiredParamsResponse) : List (String × RequiredParamsResponse) :=
  if l.any (fun p => p.1 == k) then
    l.map (fun p => if p.1 == k then (k, v) else p)
  else
    l ++ [(k, v)]

/-- JavaScript object read `obj[k]`: the stored value, or `undefined`
(`none`) when the key is absent. -/
def getKey (l : List (String × RequiredParamsResponse)) (k : String) :
    Option RequiredParamsResponse :=
  (l.find? (fun p => p.1 == k)).map (fun p => p.2)

/-- The scheme loop of `Apps.getRequiredParams`: for each scheme, store
under `scheme.mode` the classification of its fields. -/
def buildAuthSchemes (schemes : List AuthScheme) :
    List (String × RequiredParamsResponse) :=
  schemes.foldl (fun acc scheme => setKey acc scheme.mode (classifyFields scheme.fields)) []

/-- The pure core of `Apps.getRequiredParams` applied to a fetched app:
`availableAuthSchemes` is the list of scheme modes, `authSchemes` maps
each mode to its bucket summary. -/
def getRequiredParamsPure (app : AppItem) : RequiredParamsFullResponse :=
  { availableAuthSchemes := app.auth_schemes.map (fun s => s.mode)
    authSchemes := buildAuthSchemes app.auth_schemes }

/-- Backend responses consumed by the `Apps` methods: the body of
`GET /apps/:appName` (`none` models an empty body). -/
structure AppsOracle where
  getApp : Option AppItem
deriving Repr

/-- `Apps.get`: emits telemetry, issues `GET /apps/:appName`, throws
`"App not found"` when the response body is empty. -/
def Apps.get (appKey : String) (o : AppsOracle) :
    List Event × Except SDKError AppItem :=
  ([Event.telemetry "get" appsFile [appKey], Event.network "GET /apps/:appName"],
    match o.getApp with
    | none => Except.error (SDKError.err "App not found")
    | some app => Except.ok app)

/-- `Apps.list`: emits telemetry, issues `GET /apps`, returns
`data?.items || []` (the oracle gives the item list, `none` for an empty
body). -/
def Apps.list (o : Option (List AppItem)) :
    List Event × Except SDKError (List AppItem) :=
  ([Event.telemetry "list" appsFile [], Event.network "GET /apps"],
    Except.ok (o.getD []))

/-- `Apps.getRequiredParams`: telemetry, `ZGetRequiredParams.parse`
(outcome given by `parseOk`), then `this.get` followed by the pure
classification.  A parse failure surfaces as a structured validation
error before any network call. -/
def Apps.getRequiredParams (appId : String) (parseOk : Bool) (o : AppsOracle) :
    List Event × Except SDKError RequiredParamsFullResponse :=
  let tel := [Event.telemetry "getRequiredParams" appsFile [appId]]
  if !parseOk then
    (tel ++ [Event.validate "ZGetRequiredParams"],
      Except.error (SDKError.validation "ZGetRequiredParams"))
  else
    match Apps.get appId o with
    | (tr, Except.error e) =>
      (tel ++ [Event.validate "ZGetRequiredParams"] ++ tr, Except.error e)
    | (tr, Except.ok app) =>
      (tel ++ [Event.validate "ZGetRequiredParams"] ++ tr,
        Except.ok (getRequiredParamsPure app))

/-- `Apps.getRequiredParamsForAuthScheme`: telemetry,
`ZGetRequiredParamsForAuthScheme.parse` (outcome `parseOk2`), then
`getRequiredParams` and an object read `params.authSchemes[authScheme]`
whose absent-key result is `undefined` (`none`), returned without error. -/
def Apps.getRequiredParamsForAuthScheme (appId authScheme : String)
    (parseOk2 parseOk : Bool) (o : AppsOracle) :
    List Event × Except SDKError (Option RequiredParamsResponse) :=
  let tel := [Event.telemetry "getRequiredParamsForAuthScheme" appsFile [appId, authScheme]]
  if !parseOk2 then
    (tel ++ [Event.validate "ZGetRequiredParamsForAuthScheme"],
      Except.error (SDKError.validation "ZGetRequiredParamsForAuthScheme"))
  else
    match Apps.getRequiredParams appId parseOk o with
    | (tr, Except.error e) =>
      (tel ++ [Event.validate "ZGetRequiredParamsForAuthScheme"] ++ tr, Except.error e)
    | (tr, Except.ok params) =>
      (tel ++ [Event.validate "ZGetRequiredParamsForAuthScheme"] ++ tr,
        Except.ok (getKey params.authSchemes authScheme))

/-! ## ConnectedAccounts (`js/src/sdk/models/connectedAccounts.ts`) -/

/-- Body of a successful `POST /connections` (initiate-connection)
response: `\x7bconnectionStatus, connectedAccountId, redirectUrl?\x7d`. -/
structure InitiateConnectionRes where
  connectionStatus : String
  connectedAccountId : String
  redirectUrl : Option String
deriving DecidableEq, Repr

/-- The `ConnectionRequest` value object.  The fields are optional
because `initiate` builds one through non-null assertions on a possibly
`undefined` response (`res?.connectionStatus!`), so `undefined` values
flow into the object unchanged; `none` models both `undefined` and
`null`. -/
structure ConnectionRequest where
  connectionStatus : Option String
  connectedAccountId : Option String
  redirectUrl : Option String
deriving DecidableEq, Repr

/-- Argument of `get` / `delete` / `getAuthInfo`
(`ZSingleConnectionParams`): the connected-account id. -/
structure SingleConnectionParam where
  connectedAccountId : String
deriving DecidableEq, Repr

/-- The slice of a `GET /connections/:id` response the SDK reads:
`integrationId` and `status`. -/
structure ConnectedAccountRes where
  integrationId : String
  status : String
deriving DecidableEq, Repr

/-- `ConnectedAccounts.list`: telemetry, then directly
`GET /connections`; no schema validation is performed, and the response
body is returned through a non-null assertion (`res.data!`), so an empty
body flows through as `undefined`. -/
def ConnectedAccounts.list (data : String) (o : Option String) :
    List Event × Except SDKError (Option String) :=
  ([Event.telemetry "list" connectedAccountsFile [data],
    Event.network "GET /connections"],
    Except.ok o)

/-- `ConnectedAccounts.create`: telemetry, then directly
`POST /connections` with `throwOnError: true` (a failed request throws),
wrapping the response into a `ConnectionRequest` with
`redirectUri := res.redirectUrl ?? null`; no schema validation. -/
def ConnectedAccounts.create (data : String) (o : Option InitiateConnectionRes) :
    List Event × Except SDKError ConnectionRequest :=
  ([Event.telemetry "create" connectedAccountsFile [data],
    Event.network "POST /connections"],
    match o with
    | none => Except.error (SDKError.err "request failed")
    | some res =>
      Except.ok
        { connectionStatus := some res.connectionStatus
          connectedAccountId := some res.connectedAccountId
          redirectUrl := res.redirectUrl })

/-- `ConnectedAccounts.get`: telemetry, `ZSingleConnectionParams.parse`
(outcome `parseOk`), then `GET /connections/:id` with
`throwOnError: true`. -/
def ConnectedAccounts.get (data : SingleConnectionParam) (parseOk : Bool)
    (o : Option ConnectedAccountRes) :
    List Event × Except SDKError ConnectedAccountRes :=
  let tel := [Event.telemetry "get" connectedAccountsFile [data.connectedAccountId]]
  if !parseOk then
    (tel ++ [Event.validate "ZSingleConnectionParams"],
      Except.error (SDKError.validation "ZSingleConnectionParams"))
  else
    (tel ++ [Event.validate "ZSingleConnectionParams",
      Event.network "GET /connections/:id"],
      match o with
      | none => Except.error (SDKError.err "request failed")
      | some r => Except.ok r)

/-- `ConnectedAccounts.delete`: telemetry, `ZSingleConnectionParams.parse`,
then `DELETE /connections/:id` with `throwOnError: true`; the
acknowledgment body is modelled as a string. -/
def ConnectedAccounts.delete (data : SingleConnectionParam) (parseOk : Bool)
    (o : Option String) :
    List Event × Except SDKError (Option String) :=
  let tel := [Event.telemetry "delete" connectedAccountsFile [data.connectedAccountId]]
  if !parseOk then
    (tel ++ [Event.validate "ZSingleConnectionParams"],
      Except.error (SDKError.validation "ZSingleConnectionParams"))
  else
    (tel ++ [Event.validate "ZSingleConnectionParams",
      Event.network "DELETE /connections/:id"],
      Except.ok o)

/-- The `InitiateConnectionDataReq` payload of
`ConnectedAccounts.initiate`; every field the method destructures.
`authConfig` and `data` are objects, modelled as key-value lists. -/
structure InitiatePayload where
  integrationId : Option String
  entityId : Option String
  labels : Option (List String)
  data : Option (List (String × String))
  redirectUri : Option String
  authMode : Option String
  authConfig : Option (List (String × String))
  appName : Option String
deriving DecidableEq, Repr

/-- Rendering of an `InitiatePayload` for the telemetry `params` field. -/
def InitiatePayload.render (p : InitiatePayload) : List String :=
  [p.integrationId.getD "", p.entityId.getD "", p.redirectUri.getD "",
    p.authMode.getD "", p.appName.getD ""]

/-- The slice of an integration-creation response read by `initiate`:
`integration?.id!`. -/
structure IntegrationRes where
  id : Option String
deriving DecidableEq, Repr

/-- Backend responses consumed along the `initiate` control flow:
`GET /apps/:appName` (via `Apps.get`), the integration-creation call
(`Integrations.create`, external collaborator — `none` models an
`undefined` response, read through `integration?.id!`), the
`POST /connections` body (read through `res?.field!`), and the timestamp
used to generate the integration name. -/
structure InitiateOracle where
  getApp : Option AppItem
  createIntegration : Option IntegrationRes
  initiateConnection : Option InitiateConnectionRes
  timestamp : String
deriving Repr

/-- `ConnectedAccounts.initiate`: telemetry, then — only when
`integrationId` is falsy AND `authMode` is truthy — the missing-field
checks on `appName`, `authMode`, `authConfig` followed by `Apps.get` and
`Integrations.create` (name `integration_<timestamp>`); in every
non-throwing path it finally issues `POST /connections` and builds a
`ConnectionRequest` through non-null assertions on the possibly
`undefined` response.  No schema validation is performed. -/
def ConnectedAccounts.initiate (payload : InitiatePayload) (o : InitiateOracle) :
    List Event × Except SDKError ConnectionRequest :=
  let tel := [Event.telemetry "initiate" connectedAccountsFile payload.render]
  let branch : List Event × Except SDKError (Option String) :=
    if !(truthy payload.integrationId) && truthy payload.authMode then
      if !(truthy payload.appName) then
        ([], Except.error (SDKError.err "appName is required when integrationId is not provided"))
      else if !(truthy payload.authMode) then
        ([], Except.error (SDKError.err "authMode is required when integrationId is not provided"))
      else if !payload.authConfig.isSome then
        ([], Except.error (SDKError.err "authConfig is required when integrationId is not provided"))
      else
        match Apps.get (payload.appName.getD "") { getApp := o.getApp } with
        | (tr, Except.error e) => (tr, Except.error e)
        | (tr, Except.ok _app) =>
          (tr ++ [Event.network "POST /integrations"],
            Except.ok (o.createIntegration.bind (fun i => i.id)))
    else
      ([], Except.ok payload.integrationId)
  match branch with
  | (tr, Except.error e) => (tel ++ tr, Except.error e)
  | (tr, Except.ok _integrationId) =>
    (tel ++ tr ++ [Event.network "POST /connections"],
      Except.ok
        { connectionStatus := o.initiateConnection.map (fun r => r.connectionStatus)
          connectedAccountId := o.initiateConnection.map (fun r => r.connectedAccountId)
          redirectUrl := o.initiateConnection.bind (fun r => r.redirectUrl) })

/-! ## ConnectionRequest follow-up methods -/

/-- Argument of `saveUserAccessData` (`ZSaveUserAccessDataParam`):
`fieldInputs`, optional `redirectUrl`, optional `entityId`. -/
structure SaveUserAccessDataParam where
  fieldInputs : List (String × String)
  redirectUrl : Option String
  entityId : Option String
deriving DecidableEq, Repr

/-- `ConnectionRequest.saveUserAccessData`: `ZSaveUserAccessDataParam.parse`,
`GET /connections/:id` for the stored `connectedAccountId`, throw
`"Connected account not found"` on an empty body, then re-issue
`POST /connections` carrying the account's integration id.  Emits no
telemetry. -/
def ConnectionRequest.saveUserAccessData (connectedAccountId : String)
    (data : SaveUserAccessDataParam) (parseOk : Bool)
    (getConn : Option ConnectedAccountRes)
    (initiateRes : Option InitiateConnectionRes) :
    List Event × Except SDKError (Option InitiateConnectionRes) :=
  let _ := connectedAccountId
  let _ := data
  if !parseOk then
    ([Event.validate "ZSaveUserAccessDataParam"],
      Except.error (SDKError.validation "ZSaveUserAccessDataParam"))
  else
    match getConn with
    | none =>
      ([Event.validate "ZSaveUserAccessDataParam",
        Event.network "GET /connections/:id"],
        Except.error (SDKError.err "Connected account not found"))
    | some _conn =>
      ([Event.validate "ZSaveUserAccessDataParam",
        Event.network "GET /connections/:id",
        Event.network "POST /connections"],
        Except.ok initiateRes)

/-- `ConnectionRequest.getAuthInfo`: `ZSingleConnectionParams.parse`, then
`GET /connections/:id/info`, returning the body through a non-null
assertion (`res.data!`).  Emits no telemetry. -/
def ConnectionRequest.getAuthInfo (data : SingleConnectionParam) (parseOk : Bool)
    (o : Option String) :
    List Event × Except SDKError (Option String) :=
  let _ := data
  if !parseOk then
    ([Event.validate "ZSingleConnectionParams"],
      Except.error (SDKError.validation "ZSingleConnectionParams"))
  else
    ([Event.validate "ZSingleConnectionParams",
      Event.network "GET /connections/:id/info"],
      Except.ok o)

/-- The connection record polled by `waitUntilActive`; only `status` is
inspected. -/
structure Connection where
  status : String
deriving DecidableEq, Repr

/-- Terminal outcome of the `waitUntilActive` polling loop. -/
inductive WaitOutcome where
  | ok (c : Connection)
  | notFound
  | timedOut
deriving DecidableEq, Repr

/-- The `while (Date.now() - startTime < timeout * 1000)` loop of
`waitUntilActive`, under the time model in which a fetch is instantaneous
and each `setTimeout` sleep costs exactly 1000 ms: at the start of poll
`k` the elapsed time is `1000 * k` ms, so the loop guard
`elapsed < timeout * 1000` is `k < timeout` and the remaining fuel is
`timeout - k`.  `fetch k` is the body of the `k`-th
`GET /connections/:id`; the result carries the trace (one network event
per poll) and the number of sleeps incurred. -/
def waitGo (fetch : Nat → Option Connection) :
    Nat → Nat → List Event × WaitOutcome × Nat
  | _, 0 => ([], WaitOutcome.timedOut, 0)
  | k, fuel + 1 =>
    match fetch k with
    | none => ([Event.network "GET /connections/:id"], WaitOutcome.notFound, 0)
    | some c =>
      if c.status == "ACTIVE" then
        ([Event.network "GET /connections/:id"], WaitOutcome.ok c, 0)
      else
        match waitGo fetch (k + 1) fuel with
        | (tr, r, s) => (Event.network "GET /connections/:id" :: tr, r, s + 1)

/-- `ConnectionRequest.waitUntilActive(timeout)`: run the polling loop
from poll `0` with fuel `timeout` (seconds).  Emits no telemetry. -/
def ConnectionRequest.waitUntilActive (fetch : Nat → Option Connection)
    (timeout : Nat) : List Event × WaitOutcome × Nat :=
  waitGo fetch 0 timeout

/-! ## Trace observations -/

/-- Whether an event is a telemetry emission. -/
def isTelemetry : Event → Bool
  | Event.telemetry _ _ _ => true
  | _ => false

/-- Whether an event is a schema-validation call. -/
def isValidate : Event → Bool
  | Event.validate _ => true
  | _ => false

/-- Whether an event is a network request. -/
def isNetwork : Event → Bool
  | Event.network _ => true
  | _ => false

/-- Number of telemetry events in a trace that carry the method name `m`. -/
def countTelemetry (m : String) : List Event → Nat
  | [] => 0
  | Event.telemetry m2 _ _ :: rest =>
      (if m2 == m then 1 else 0) + countTelemetry m rest
  | _ :: rest => countTelemetry m rest

/-- Holds (as a boolean) when no network request occurs before the first
schema-validation call of the trace; vacuously true for traces without
network requests. -/
def noNetworkBeforeValidate : List Event → Bool
  | [] => true
  | Event.network _ :: _ => false
  | Event.validate _ :: _ => true
  | Event.telemetry _ _ _ :: rest => noNetworkBeforeValidate rest

/-- Recogniser for the dead error of `initiate`:
`Error("authMode is required when integrationId is not provided")`. -/
def isAuthModeMissingError : Except SDKError ConnectionRequest → Bool
  | Except.error (SDKError.err m) =>
      m == "authMode is required when integrationId is not provided"
  | _ => false

/-! ## Bucket-membership characterisation of the classification loop -/
/-- A name is in the `required_fields` bucket exactly when some field of
the scheme bears it with `expected_from_customer = true`. -/
theorem mem_required_fields_iff (fields : List SchemeField) (n : String) :
    n ∈ (classifyFields fields).required_fields ↔
      ∃ f, f ∈ fields ∧ f.name = n ∧ f.expected_from_customer = true := by
  induction fields with
  | nil => simp [classifyFields]
  | cons f rest ih =>
    cases hc : f.expected_from_customer <;> cases hr : f.required <;>
      simp [classifyFields, hc, hr, ih, List.mem_cons] <;> aesop

/-- A name is in the `optional_fields` bucket exactly when some field of
the scheme bears it with `expected_from_customer = false` and
`required = false`. -/
theorem mem_optional_fields_iff (fields : List SchemeField) (n : String) :
    n ∈ (classifyFields fields).optional_fields ↔
      ∃ f, f ∈ fields ∧ f.name = n ∧ f.expected_from_customer = false ∧
        f.required = false := by
  induction fields with
  | nil => simp [classifyFields]
  | cons f rest ih =>
    cases hc : f.expected_from_customer <;> cases hr : f.required <;>
      simp [classifyFields, hc, hr, ih, List.mem_cons] <;> aesop

/-- A name is in the `expected_from_user` bucket exactly when some field
of the scheme bears it with `expected_from_customer = false` and
`required = true`. -/
theorem mem_expected_from_user_iff (fields : List SchemeField) (n : String) :
    n ∈ (classifyFields fields).expected_from_user ↔
      ∃ f, f ∈ fields ∧ f.name = n ∧ f.expected_from_customer = false ∧
        f.required = true := by
  induction fields with
  | nil => simp [classifyFields]
  | cons f rest ih =>
    cases hc : f.expected_from_customer <;> cases hr : f.required <;>
      simp [classifyFields, hc, hr, ih, List.mem_cons] <;> aesop
/-! ## Object read/write lemmas for the `authSchemes` map -/

/-- Reading the empty object yields `undefined`. -/
theorem getKey_nil (m : String) : getKey [] m = none := rfl

/-- Reading a non-empty object inspects the first entry first. -/
theorem getKey_cons (p : String × RequiredParamsResponse)
    (l : List (String × RequiredParamsResponse)) (m : String) :
    getKey (p :: l) m = if p.1 == m then some p.2 else getKey l m := by
  by_cases h : p.1 = m
  · simp [getKey, List.find?, h]
  · have h' : (p.1 == m) = false := by simp [h]
    simp [getKey, List.find?, h']

/-- Reading a concatenation reads the left part first. -/
theorem getKey_append (l1 l2 : List (String × RequiredParamsResponse)) (m : String) :
    getKey (l1 ++ l2) m =
      match getKey l1 m with
      | some v => some v
      | none => getKey l2 m := by
  induction l1 with
  | nil => simp [getKey_nil]
  | cons p l ih =>
    by_cases h : p.1 = m <;> simp [getKey_cons, h, ih]

/-- An object containing no entry for key `k` reads `undefined` at `k`. -/
theorem getKey_eq_none (l : List (String × RequiredParamsResponse)) (k : String)
    (h : l.any (fun p => p.1 == k) = false) : getKey l k = none := by
  induction l with
  | nil => rfl
  | cons p l ih =>
    simp only [List.any_cons, Bool.or_eq_false_iff] at h
    rw [getKey_cons, if_neg (by simp [h.1]), ih h.2]

/-- Replacing every entry keyed `k` by `(k, v)` makes the read at `k`
yield `v` exactly when such an entry exists. -/
theorem getKey_replaceKey_eq (l : List (String × RequiredParamsResponse))
    (k : String) (v : RequiredParamsResponse) :
    getKey (l.map (fun p => if p.1 == k then (k, v) else p)) k =
      if l.any (fun p => p.1 == k) then some v else none := by
  induction l with
  | nil => simp [getKey_nil]
  | cons p l ih =>
    by_cases hp : p.1 = k <;> simp_all [getKey_cons]
    have hp' : (p.1 == k) = false := by simp [hp]
    rw [hp', Bool.false_or]

/-- Replacing every entry keyed `k` by `(k, v)` leaves the read at any
other key unchanged. -/
theorem getKey_replaceKey_ne (l : List (String × RequiredParamsResponse))
    (k m : String) (v : RequiredParamsResponse) (hkm : k ≠ m) :
    getKey (l.map (fun p => if p.1 == k then (k, v) else p)) m = getKey l m := by
  induction l with
  | nil => rfl
  | cons p l ih =>
    by_cases hp : p.1 = k <;> simp_all [getKey_cons]

/-- `obj[k] = v` followed by a read: the read at `k` yields `v`, every
other read is unchanged. -/
theorem getKey_setKey (l : List (String × RequiredParamsResponse))
    (k m : String) (v : RequiredParamsResponse) :
    getKey (setKey l k v) m = if k == m then some v else getKey l m := by
  unfold setKey
  by_cases h : l.any (fun p => p.1 == k) = true
  · rw [if_pos h]
    by_cases hkm : k = m
    · subst hkm
      rw [getKey_replaceKey_eq, h]
      simp
    · have hkm' : (k == m) = false := by simp [hkm]
      rw [getKey_replaceKey_ne l k m v hkm, hkm']
      simp
  · have h' : l.any (fun p => p.1 == k) = false := by
      cases hx : l.any (fun p => p.1 == k)
      · rfl
      · exact absurd hx h
    rw [if_neg h, getKey_append]
    by_cases hkm : k = m
    · subst hkm
      rw [getKey_eq_none l k h']
      simp [getKey_cons]
    · have hkm' : (k == m) = false := by simp [hkm]
      cases hg : getKey l m <;> simp [getKey_cons, getKey_nil, hkm', hkm]

/-- The scheme whose classification survives in the object built by the
scheme loop: the last scheme of the list bearing the given mode. -/
def lastScheme (mode : String) : List AuthScheme → Option AuthScheme
  | [] => none
  | s :: rest =>
    match lastScheme mode rest with
    | some t => some t
    | none => if s.mode == mode then some s else none

/-- Reading the object built by the scheme loop at a mode yields the
classification of the last scheme bearing that mode. -/
theorem getKey_foldl_setKey (schemes : List AuthScheme)
    (acc : List (String × RequiredParamsResponse)) (mode : String) :
    getKey (schemes.foldl
        (fun a s => setKey a s.mode (classifyFields s.fields)) acc) mode =
      match lastScheme mode schemes with
      | some t => some (classifyFields t.fields)
      | none => getKey acc mode := by
  induction schemes generalizing acc with
  | nil => rfl
  | cons s rest ih =>
    rw [List.foldl_cons, ih]
    cases hl : lastScheme mode rest
    · simp only [lastScheme, hl, getKey_setKey]
      cases hsm : (s.mode == mode) <;> simp [hsm]
    · simp [lastScheme, hl]

/-- The surviving scheme is one of the schemes and bears the mode. -/
theorem lastScheme_mem (mode : String) (l : List AuthScheme) (t : AuthScheme)
    (h : lastScheme mode l = some t) : t ∈ l ∧ t.mode = mode := by
  induction l with
  | nil => cases h
  | cons s rest ih =>
    simp only [lastScheme] at h
    cases hl : lastScheme mode rest with
    | some u =>
      rw [hl] at h
      cases h
      have := ih hl
      exact ⟨List.mem_cons_of_mem _ this.1, this.2⟩
    | none =>
      rw [hl] at h
      by_cases hm : s.mode = mode
      · rw [if_pos (by simp [hm])] at h
        cases h
        exact ⟨List.mem_cons_self _ _, hm⟩
      · rw [if_neg (by simp [hm])] at h
        cases h

/-- A mode borne by some scheme of the list has a surviving scheme. -/
theorem lastScheme_isSome (mode : String) (l : List AuthScheme) (s : AuthScheme)
    (hs : s ∈ l) (hm : s.mode = mode) : ∃ t, lastScheme mode l = some t := by
  induction l with
  | nil => cases hs
  | cons a rest ih =>
    rcases List.mem_cons.mp hs with rfl | hs'
    · simp only [lastScheme]
      cases hl : lastScheme mode rest
      · exact ⟨s, by rw [if_pos (by simp [hm])]⟩
      · exact ⟨_, rfl⟩
    · obtain ⟨t, ht⟩ := ih hs'
      exact ⟨t, by simp [lastScheme, ht]⟩
/-! ## C2, C5, C8: the required-params classification -/

/-- C2: `getRequiredParams` classifies every field of every auth scheme
of the app by its flags — `expected_from_customer = false ∧ required = true`
puts the field name in `expected_from_user`,
`expected_from_customer = false ∧ required = false` in `optional_fields`,
`expected_from_customer = true` in `required_fields` — and the summary
entry stored under the scheme's mode is such a classification of one of
the app's schemes bearing that mode. -/
theorem getRequiredParams_classifies_fields
    (app : AppItem) (scheme : AuthScheme) (f : SchemeField)
    (hs : scheme ∈ app.auth_schemes) (hf : f ∈ scheme.fields) :
    (f.expected_from_customer = false → f.required = true →
      f.name ∈ (classifyFields scheme.fields).expected_from_user) ∧
    (f.expected_from_customer = false → f.required = false →
      f.name ∈ (classifyFields scheme.fields).optional_fields) ∧
    (f.expected_from_customer = true →
      f.name ∈ (classifyFields scheme.fields).required_fields) ∧
    ∃ t, t ∈ app.auth_schemes ∧ t.mode = scheme.mode ∧
      getKey (getRequiredParamsPure app).authSchemes scheme.mode =
        some (classifyFields t.fields) := by
  refine ⟨?_, ?_, ?_, ?_⟩
  · intro hc hr
    exact (mem_expected_from_user_iff _ _).mpr ⟨f, hf, rfl, hc, hr⟩
  · intro hc hr
    exact (mem_optional_fields_iff _ _).mpr ⟨f, hf, rfl, hc, hr⟩
  · intro hc
    exact (mem_required_fields_iff _ _).mpr ⟨f, hf, rfl, hc⟩
  · obtain ⟨t, ht⟩ := lastScheme_isSome scheme.mode app.auth_schemes scheme hs rfl
    have hmem := lastScheme_mem scheme.mode app.auth_schemes t ht
    refine ⟨t, hmem.1, hmem.2, ?_⟩
    show getKey (buildAuthSchemes app.auth_schemes) scheme.mode = _
    rw [buildAuthSchemes, getKey_foldl_setKey, ht]

/-- Witness for C2 at a concrete app: a field with
`expected_from_customer = false` and `required = true` lands in
`expected_from_user`. -/
theorem getRequiredParams_classifies_fields_witness :
    "client_id" ∈
      (classifyFields [⟨"client_id", true, false⟩]).expected_from_user :=
  (getRequiredParams_classifies_fields
    ⟨some "a1", [⟨"oauth2", [⟨"client_id", true, false⟩]⟩]⟩
    ⟨"oauth2", [⟨"client_id", true, false⟩]⟩
    ⟨"client_id", true, false⟩
    (by decide) (by decide)).1 rfl rfl

/-- C5 counterexample: in a scheme with two fields sharing the name
`"token"` (one `required` with `expected_from_customer = false`, one with
`expected_from_customer = true`), the derived summary holds `"token"` in
both `expected_from_user` and `required_fields`, so the buckets are not
mutually exclusive per field name and that field does not appear in
exactly one bucket. -/
theorem requiredParams_buckets_not_exclusive :
    "token" ∈ (classifyFields
      [⟨"token", true, false⟩, ⟨"token", false, true⟩]).expected_from_user ∧
    "token" ∈ (classifyFields
      [⟨"token", true, false⟩, ⟨"token", false, true⟩]).required_fields ∧
    getKey (getRequiredParamsPure
        ⟨some "app", [⟨"api_key",
          [⟨"token", true, false⟩, ⟨"token", false, true⟩]⟩]⟩).authSchemes
      "api_key" =
      some (classifyFields
        [⟨"token", true, false⟩, ⟨"token", false, true⟩]) := by
  decide

/-- C5 (amended): when the field names of a scheme are pairwise distinct,
every field of the scheme appears in exactly one of the three buckets of
its derived summary. -/
theorem classifyFields_buckets_exclusive (fields : List SchemeField)
    (hnd : (fields.map SchemeField.name).Nodup)
    (f : SchemeField) (hf : f ∈ fields) :
    (f.name ∈ (classifyFields fields).required_fields ∧
      f.name ∉ (classifyFields fields).optional_fields ∧
      f.name ∉ (classifyFields fields).expected_from_user) ∨
    (f.name ∉ (classifyFields fields).required_fields ∧
      f.name ∈ (classifyFields fields).optional_fields ∧
      f.name ∉ (classifyFields fields).expected_from_user) ∨
    (f.name ∉ (classifyFields fields).required_fields ∧
      f.name ∉ (classifyFields fields).optional_fields ∧
      f.name ∈ (classifyFields fields).expected_from_user) := by
  have huniq : ∀ g, g ∈ fields → g.name = f.name → g = f := by
    intro g hg hgn
    exact List.inj_on_of_nodup_map hnd hg hf hgn
  cases hc : f.expected_from_customer
  · cases hr : f.required
    · refine Or.inr (Or.inl ⟨?_, ?_, ?_⟩)
      · intro h
        obtain ⟨g, hg, hgn, hgc⟩ := (mem_required_fields_iff _ _).mp h
        rw [huniq g hg hgn] at hgc
        rw [hc] at hgc
        cases hgc
      · exact (mem_optional_fields_iff _ _).mpr ⟨f, hf, rfl, hc, hr⟩
      · intro h
        obtain ⟨g, hg, hgn, hgc, hgr⟩ := (mem_expected_from_user_iff _ _).mp h
        rw [huniq g hg hgn] at hgr
        rw [hr] at hgr
        cases hgr
    · refine Or.inr (Or.inr ⟨?_, ?_, ?_⟩)
      · intro h
        obtain ⟨g, hg, hgn, hgc⟩ := (mem_required_fields_iff _ _).mp h
        rw [huniq g hg hgn] at hgc
        rw [hc] at hgc
        cases hgc
      · intro h
        obtain ⟨g, hg, hgn, hgc, hgr⟩ := (mem_optional_fields_iff _ _).mp h
        rw [huniq g hg hgn] at hgr
        rw [hr] at hgr
        cases hgr
      · exact (mem_expected_from_user_iff _ _).mpr ⟨f, hf, rfl, hc, hr⟩
  · refine Or.inl ⟨?_, ?_, ?_⟩
    · exact (mem_required_fields_iff _ _).mpr ⟨f, hf, rfl, hc⟩
    · intro h
      obtain ⟨g, hg, hgn, hgc, hgr⟩ := (mem_optional_fields_iff _ _).mp h
      rw [huniq g hg hgn] at hgc
      rw [hc] at hgc
      cases hgc
    · intro h
      obtain ⟨g, hg, hgn, hgc, hgr⟩ := (mem_expected_from_user_iff _ _).mp h
      rw [huniq g hg hgn] at hgc
      rw [hc] at hgc
      cases hgc

/-- Witness for the amended C5 at a concrete scheme with two distinct
field names. -/
theorem classifyFields_buckets_exclusive_witness :
    ("api_key" ∈ (classifyFields
        [⟨"api_key", true, false⟩, ⟨"region", false, false⟩]).required_fields ∧
      "api_key" ∉ (classifyFields
        [⟨"api_key", true, false⟩, ⟨"region", false, false⟩]).optional_fields ∧
      "api_key" ∉ (classifyFields
        [⟨"api_key", true, false⟩, ⟨"region", false, false⟩]).expected_from_user) ∨
    ("api_key" ∉ (classifyFields
        [⟨"api_key", true, false⟩, ⟨"region", false, false⟩]).required_fields ∧
      "api_key" ∈ (classifyFields
        [⟨"api_key", true, false⟩, ⟨"region", false, false⟩]).optional_fields ∧
      "api_key" ∉ (classifyFields
        [⟨"api_key", true, false⟩, ⟨"region", false, false⟩]).expected_from_user) ∨
    ("api_key" ∉ (classifyFields
        [⟨"api_key", true, false⟩, ⟨"region", false, false⟩]).required_fields ∧
      "api_key" ∉ (classifyFields
        [⟨"api_key", true, false⟩, ⟨"region", false, false⟩]).optional_fields ∧
      "api_key" ∈ (classifyFields
        [⟨"api_key", true, false⟩, ⟨"region", false, false⟩]).expected_from_user) :=
  classifyFields_buckets_exclusive
    [⟨"api_key", true, false⟩, ⟨"region", false, false⟩]
    (by decide)
    ⟨"api_key", true, false⟩
    (by decide)

/-- C8: with its two schema validations passing and the app fetched,
`getRequiredParamsForAuthScheme(appId, authScheme)` returns exactly the
object read `getRequiredParams(appId).authSchemes[authScheme]`, and when
the scheme key is absent from that mapping the result is the absent value
(`none`) with no error raised. -/
theorem getRequiredParamsForAuthScheme_indexes
    (appId mode : String) (o : AppsOracle) (app : AppItem)
    (h : o.getApp = some app) :
    (Apps.getRequiredParams appId true o).2 =
      Except.ok (getRequiredParamsPure app) ∧
    (Apps.getRequiredParamsForAuthScheme appId mode true true o).2 =
      Except.ok (getKey (getRequiredParamsPure app).authSchemes mode) ∧
    (mode ∉ (getRequiredParamsPure app).authSchemes.map Prod.fst →
      (Apps.getRequiredParamsForAuthScheme appId mode true true o).2 =
        Except.ok none) := by
  have hget : Apps.get appId o =
      ([Event.telemetry "get" appsFile [appId], Event.network "GET /apps/:appName"],
        Except.ok app) := by
    rw [Apps.get, h]
  have hgrp : (Apps.getRequiredParams appId true o).2 =
      Except.ok (getRequiredParamsPure app) := by
    rw [Apps.getRequiredParams, hget]
    simp
  have hnone : mode ∉ (getRequiredParamsPure app).authSchemes.map Prod.fst →
      getKey (getRequiredParamsPure app).authSchemes mode = none := by
    intro hm
    apply getKey_eq_none
    rw [List.any_eq_false]
    intro p hp
    have hpm : p.1 ≠ mode := fun hpk => hm (List.mem_map.mpr ⟨p, hp, hpk⟩)
    simp [hpm]
  have hmain : (Apps.getRequiredParamsForAuthScheme appId mode true true o).2 =
      Except.ok (getKey (getRequiredParamsPure app).authSchemes mode) := by
    rw [Apps.getRequiredParamsForAuthScheme, Apps.getRequiredParams, hget]
    simp
  refine ⟨hgrp, hmain, ?_⟩
  intro hm
  rw [hmain, hnone hm]

/-- Witness for C8 at a concrete oracle: a mode absent from the app's
schemes yields `ok none`. -/
theorem getRequiredParamsForAuthScheme_indexes_witness :
    (Apps.getRequiredParamsForAuthScheme "slack" "oauth1" true true
      ⟨some ⟨some "a1", [⟨"oauth2", []⟩]⟩⟩).2 = Except.ok none :=
  (getRequiredParamsForAuthScheme_indexes "slack" "oauth1"
    ⟨some ⟨some "a1", [⟨"oauth2", []⟩]⟩⟩
    ⟨some "a1", [⟨"oauth2", []⟩]⟩
    rfl).2.2 (by decide)

/-! ## C7: `create` response round-trip -/

/-- C7: a successful `create` maps the response fields one-to-one into
the returned `ConnectionRequest`: `connectionStatus` and
`connectedAccountId` carry over, and `redirectUrl` is the response's
`redirectUrl` with absence mapped to `null` (`none`). -/
theorem create_roundtrip (data : String) (res : InitiateConnectionRes) :
    ∃ cr, (ConnectedAccounts.create data (some res)).2 = Except.ok cr ∧
      cr.connectionStatus = some res.connectionStatus ∧
      cr.connectedAccountId = some res.connectedAccountId ∧
      cr.redirectUrl = res.redirectUrl :=
  ⟨_, rfl, rfl, rfl, rfl⟩

/-! ## C1 and C10: the guarded missing-field checks of `initiate` -/

/-- C1: with `integrationId` and `authMode` both absent, `initiate` does
not fail with a missing-field error — the check block is gated on
`authMode` being truthy, so it is skipped entirely and the method
proceeds straight to the `POST /connections` network call with an
`undefined` integration id, returning a `ConnectionRequest` built from
the (here absent) response. -/
theorem initiate_skips_missing_field_checks :
    ConnectedAccounts.initiate
      ⟨none, none, none, none, none, none, some [("api_key", "k")], some "github"⟩
      ⟨none, none, none, "20250101T000000000"⟩ =
    ([Event.telemetry "initiate" connectedAccountsFile ["", "", "", "", "github"],
      Event.network "POST /connections"],
      Except.ok ⟨none, none, none⟩) := rfl

/-- C10: the branch throwing
`"authMode is required when integrationId is not provided"` is
unreachable — its enclosing block is entered only when `authMode` is
truthy, so no input makes `initiate` produce that error. -/
theorem initiate_authMode_check_unreachable
    (payload : InitiatePayload) (o : InitiateOracle) :
    isAuthModeMissingError (ConnectedAccounts.initiate payload o).2 = false := by
  rw [ConnectedAccounts.initiate]
  cases hA : truthy payload.authMode
  · simp [hA, isAuthModeMissingError]
  · cases hI : truthy payload.integrationId
    · cases hN : truthy payload.appName
      · simp [hA, hI, hN, isAuthModeMissingError]
      · cases hC : payload.authConfig.isSome
        · simp [hA, hI, hN, hC, isAuthModeMissingError]
        · cases hG : o.getApp
          · simp [Apps.get, hA, hI, hN, hC, hG, isAuthModeMissingError]
          · simp [Apps.get, hA, hI, hN, hC, hG, isAuthModeMissingError]
    · simp [hA, hI, isAuthModeMissingError]

/-! ## C6 and C9: the `waitUntilActive` polling loop -/

/-- An `ok` outcome of the polling loop only arises from a fetched
connection whose status is `"ACTIVE"`. -/
theorem waitGo_ok_active (f : Nat → Option Connection) :
    ∀ (fuel k : Nat) (tr : List Event) (c : Connection) (s : Nat),
      waitGo f k fuel = (tr, WaitOutcome.ok c, s) → c.status = "ACTIVE" := by
  intro fuel
  induction fuel with
  | zero =>
    intro k tr c s h
    simp [waitGo] at h
  | succ n ih =>
    intro k tr c s h
    rw [waitGo] at h
    cases hf : f k with
    | none =>
      rw [hf] at h
      simp at h
    | some d =>
      rw [hf] at h
      cases hd : d.status == "ACTIVE"
      · rcases hrec : waitGo f (k + 1) n with ⟨tr', r', s'⟩
        rw [hrec] at h
        simp [hd] at h
        exact ih (k + 1) tr' c s' (hrec.trans (by simp [h.2.1]))
      · simp [hd] at h
        have hdc : d = c := h.2.1
        rw [← hdc]
        exact eq_of_beq hd

/-- C9: whenever `waitUntilActive` returns a connection (rather than
failing with not-found or timeout), that connection's status is
`"ACTIVE"`. -/
theorem waitUntilActive_ok_only_active (f : Nat → Option Connection)
    (t : Nat) (tr : List Event) (c : Connection) (s : Nat)
    (h : ConnectionRequest.waitUntilActive f t = (tr, WaitOutcome.ok c, s)) :
    c.status = "ACTIVE" :=
  waitGo_ok_active f t 0 tr c s h

/-- Witness for C9 at a concrete fetch oracle. -/
theorem waitUntilActive_ok_only_active_witness :
    (⟨"ACTIVE"⟩ : Connection).status = "ACTIVE" :=
  waitUntilActive_ok_only_active (fun _ => some ⟨"ACTIVE"⟩) 1
    [Event.network "GET /connections/:id"] ⟨"ACTIVE"⟩ 0 rfl

/-- C6: a first fetch that is already `"ACTIVE"` makes `waitUntilActive`
return that connection after exactly one poll and zero sleeps, for any
positive timeout; a fetch that is never `"ACTIVE"` makes
`waitUntilActive` with `timeout = 1` fail with the timeout outcome after
exactly one poll and one sleep. -/
theorem waitUntilActive_poll_timing
    (f g : Nat → Option Connection) (c : Connection) (t : Nat)
    (ht : 0 < t) (hf : f 0 = some c) (hc : c.status = "ACTIVE")
    (hg : ∀ k, ∃ d, g k = some d ∧ d.status ≠ "ACTIVE") :
    ConnectionRequest.waitUntilActive f t =
      ([Event.network "GET /connections/:id"], WaitOutcome.ok c, 0) ∧
    ((ConnectionRequest.waitUntilActive g 1).2.1 = WaitOutcome.timedOut ∧
      (ConnectionRequest.waitUntilActive g 1).1.length = 1 ∧
      (ConnectionRequest.waitUntilActive g 1).2.2 = 1) := by
  constructor
  · obtain ⟨t', rfl⟩ : ∃ t', t = t' + 1 :=
      ⟨t - 1, (Nat.succ_pred_eq_of_pos ht).symm⟩
    rw [ConnectionRequest.waitUntilActive, waitGo, hf]
    have hcb : (c.status == "ACTIVE") = true := by simp [hc]
    simp [hcb]
  · obtain ⟨d, hd, hds⟩ := hg 0
    rw [ConnectionRequest.waitUntilActive, waitGo, hd]
    have hdb : (d.status == "ACTIVE") = false := by simp [hds]
    simp [hdb, waitGo]

/-- Witness for C6 at concrete fetch oracles: one immediately `"ACTIVE"`,
one stuck at `"INITIATED"`. -/
theorem waitUntilActive_poll_timing_witness :
    ConnectionRequest.waitUntilActive (fun _ => some ⟨"ACTIVE"⟩) 1 =
      ([Event.network "GET /connections/:id"], WaitOutcome.ok ⟨"ACTIVE"⟩, 0) ∧
    ((ConnectionRequest.waitUntilActive (fun _ => some ⟨"INITIATED"⟩) 1).2.1 =
        WaitOutcome.timedOut ∧
      (ConnectionRequest.waitUntilActive (fun _ => some ⟨"INITIATED"⟩) 1).1.length = 1 ∧
      (ConnectionRequest.waitUntilActive (fun _ => some ⟨"INITIATED"⟩) 1).2.2 = 1) :=
  waitUntilActive_poll_timing
    (fun _ => some ⟨"ACTIVE"⟩) (fun _ => some ⟨"INITIATED"⟩) ⟨"ACTIVE"⟩ 1
    (by decide) rfl rfl
    (fun _ => ⟨⟨"INITIATED"⟩, rfl, by decide⟩)

/-! ## C3 and C4: validation and telemetry across the public methods -/

/-- Telemetry counts distribute over trace concatenation. -/
theorem countTelemetry_append (m : String) (l1 l2 : List Event) :
    countTelemetry m (l1 ++ l2) = countTelemetry m l1 + countTelemetry m l2 := by
  induction l1 with
  | nil => simp [countTelemetry]
  | cons e l ih =>
    cases e <;> simp [countTelemetry, ih] <;> omega

/-- The polling loop's trace consists of network events only. -/
theorem waitGo_no_telemetry (f : Nat → Option Connection) :
    ∀ (fuel k : Nat), (waitGo f k fuel).1.any isTelemetry = false := by
  intro fuel
  induction fuel with
  | zero => intro k; rfl
  | succ n ih =>
    intro k
    rw [waitGo]
    cases hf : f k with
    | none => simp [isTelemetry]
    | some d =>
      cases hd : d.status == "ACTIVE"
      · rcases hrec : waitGo f (k + 1) n with ⟨tr', r', s'⟩
        have := ih (k + 1)
        rw [hrec] at this
        simp [hd, hrec, isTelemetry, this]
      · simp [hd, isTelemetry]

/-- C3 counterexample: `ConnectedAccounts.list` performs no schema
validation at all, yet issues its network call directly — its structured
input is not validated before use, and the same already refutes the
claim's "in particular" list. -/
theorem list_unvalidated_counterexample :
    (ConnectedAccounts.list "showActiveOnly=true" (some "body")).1.any isValidate
        = false ∧
    (ConnectedAccounts.list "showActiveOnly=true" (some "body")).1.any isNetwork
        = true := by
  decide

/-- C3 (amended): `get`, `delete`, `saveUserAccessData`, `getAuthInfo`,
`getRequiredParams` and `getRequiredParamsForAuthScheme` validate their
input against their fixed schema before any network call, and a
validation failure surfaces as a structured validation error with no
network call issued; `list`, `create` and `initiate` perform no schema
validation at all. -/
theorem validation_before_network_where_present :
    (∀ (d : SingleConnectionParam) (p : Bool) (o : Option ConnectedAccountRes),
      noNetworkBeforeValidate (ConnectedAccounts.get d p o).1 = true ∧
      (ConnectedAccounts.get d p o).1.any isValidate = true ∧
      (p = false →
        (ConnectedAccounts.get d p o).2 =
          Except.error (SDKError.validation "ZSingleConnectionParams") ∧
        (ConnectedAccounts.get d p o).1.any isNetwork = false)) ∧
    (∀ (d : SingleConnectionParam) (p : Bool) (o : Option String),
      noNetworkBeforeValidate (ConnectedAccounts.delete d p o).1 = true ∧
      (ConnectedAccounts.delete d p o).1.any isValidate = true ∧
      (p = false →
        (ConnectedAccounts.delete d p o).2 =
          Except.error (SDKError.validation "ZSingleConnectionParams") ∧
        (ConnectedAccounts.delete d p o).1.any isNetwork = false)) ∧
    (∀ (id : String) (d : SaveUserAccessDataParam) (p : Bool)
        (gc : Option ConnectedAccountRes) (ir : Option InitiateConnectionRes),
      noNetworkBeforeValidate
          (ConnectionRequest.saveUserAccessData id d p gc ir).1 = true ∧
      (ConnectionRequest.saveUserAccessData id d p gc ir).1.any isValidate = true ∧
      (p = false →
        (ConnectionRequest.saveUserAccessData id d p gc ir).2 =
          Except.error (SDKError.validation "ZSaveUserAccessDataParam") ∧
        (ConnectionRequest.saveUserAccessData id d p gc ir).1.any isNetwork
          = false)) ∧
    (∀ (d : SingleConnectionParam) (p : Bool) (o : Option String),
      noNetworkBeforeValidate (ConnectionRequest.getAuthInfo d p o).1 = true ∧
      (ConnectionRequest.getAuthInfo d p o).1.any isValidate = true ∧
      (p = false →
        (ConnectionRequest.getAuthInfo d p o).2 =
          Except.error (SDKError.validation "ZSingleConnectionParams") ∧
        (ConnectionRequest.getAuthInfo d p o).1.any isNetwork = false)) ∧
    (∀ (appId : String) (p : Bool) (o : AppsOracle),
      noNetworkBeforeValidate (Apps.getRequiredParams appId p o).1 = true ∧
      (Apps.getRequiredParams appId p o).1.any isValidate = true ∧
      (p = false →
        (Apps.getRequiredParams appId p o).2 =
          Except.error (SDKError.validation "ZGetRequiredParams") ∧
        (Apps.getRequiredParams appId p o).1.any isNetwork = false)) ∧
    (∀ (appId mode : String) (p2 p : Bool) (o : AppsOracle),
      noNetworkBeforeValidate
          (Apps.getRequiredParamsForAuthScheme appId mode p2 p o).1 = true ∧
      (Apps.getRequiredParamsForAuthScheme appId mode p2 p o).1.any isValidate
          = true ∧
      (p2 = false →
        (Apps.getRequiredParamsForAuthScheme appId mode p2 p o).2 =
          Except.error (SDKError.validation "ZGetRequiredParamsForAuthScheme") ∧
        (Apps.getRequiredParamsForAuthScheme appId mode p2 p o).1.any isNetwork
          = false)) ∧
    (∀ (d : String) (o : Option String),
      (ConnectedAccounts.list d o).1.any isValidate = false) ∧
    (∀ (d : String) (o : Option InitiateConnectionRes),
      (ConnectedAccounts.create d o).1.any isValidate = false) ∧
    (∀ (payload : InitiatePayload) (o : InitiateOracle),
      (ConnectedAccounts.initiate payload o).1.any isValidate = false) := by
  refine ⟨?_, ?_, ?_, ?_, ?_, ?_, ?_, ?_, ?_⟩
  · intro d p o
    cases p <;> cases o <;>
      simp [ConnectedAccounts.get, noNetworkBeforeValidate, isValidate, isNetwork]
  · intro d p o
    cases p <;> cases o <;>
      simp [ConnectedAccounts.delete, noNetworkBeforeValidate, isValidate, isNetwork]
  · intro id d p gc ir
    cases p <;> cases gc <;>
      simp [ConnectionRequest.saveUserAccessData, noNetworkBeforeValidate,
        isValidate, isNetwork]
  · intro d p o
    cases p <;>
      simp [ConnectionRequest.getAuthInfo, noNetworkBeforeValidate,
        isValidate, isNetwork]
  · intro appId p o
    rcases o with ⟨og⟩
    cases p <;> cases og <;>
      simp [Apps.getRequiredParams, Apps.get, noNetworkBeforeValidate,
        isValidate, isNetwork]
  · intro appId mode p2 p o
    rcases o with ⟨og⟩
    cases p2 <;> cases p <;> cases og <;>
      simp [Apps.getRequiredParamsForAuthScheme, Apps.getRequiredParams,
        Apps.get, noNetworkBeforeValidate, isValidate, isNetwork]
  · intro d o
    simp [ConnectedAccounts.list, isValidate]
  · intro d o
    cases o <;> simp [ConnectedAccounts.create, isValidate]
  · intro payload o
    cases hA : truthy payload.authMode
    · simp [ConnectedAccounts.initiate, hA, isValidate]
    · cases hI : truthy payload.integrationId
      · cases hN : truthy payload.appName
        · simp [ConnectedAccounts.initiate, hA, hI, hN, isValidate]
        · cases hC : payload.authConfig.isSome
          · simp [ConnectedAccounts.initiate, hA, hI, hN, hC, isValidate]
          · cases hG : o.getApp <;>
              simp [ConnectedAccounts.initiate, Apps.get, hA, hI, hN, hC, hG,
                isValidate]
      · simp [ConnectedAccounts.initiate, hA, hI, isValidate]

/-- Witness for the amended C3: a failing parse on `get` yields the
structured validation error and no network call. -/
theorem validation_before_network_where_present_witness :
    (ConnectedAccounts.get ⟨"acc1"⟩ false none).2 =
      Except.error (SDKError.validation "ZSingleConnectionParams") ∧
    (ConnectedAccounts.get ⟨"acc1"⟩ false none).1.any isNetwork = false :=
  (validation_before_network_where_present.1 ⟨"acc1"⟩ false none).2.2 rfl

/-- C4 counterexample: the `ConnectionRequest` follow-up methods
(`saveUserAccessData`, `getAuthInfo`, `waitUntilActive`) emit no
telemetry event at all. -/
theorem connectionRequest_no_telemetry_counterexample :
    (ConnectionRequest.saveUserAccessData "acc1" ⟨[("k", "v")], none, none⟩ true
      (some ⟨"int1", "ACTIVE"⟩) none).1.any isTelemetry = false ∧
    (ConnectionRequest.getAuthInfo ⟨"acc1"⟩ true (some "info")).1.any isTelemetry
        = false ∧
    (ConnectionRequest.waitUntilActive (fun _ => some ⟨"ACTIVE"⟩) 1).1.any
        isTelemetry = false := by
  decide

/-- C4 (amended): every public method of `ConnectedAccounts` and `Apps`
emits exactly one telemetry event under its own method name, as the first
event of its trace, carrying the method name, the originating module file
and a rendering of the call parameters; the `ConnectionRequest` follow-up
methods emit none. -/
theorem telemetry_once_per_method :
    (∀ (d : String) (o : Option String),
      (ConnectedAccounts.list d o).1.head? =
        some (Event.telemetry "list" connectedAccountsFile [d]) ∧
      countTelemetry "list" (ConnectedAccounts.list d o).1 = 1) ∧
    (∀ (d : String) (o : Option InitiateConnectionRes),
      (ConnectedAccounts.create d o).1.head? =
        some (Event.telemetry "create" connectedAccountsFile [d]) ∧
      countTelemetry "create" (ConnectedAccounts.create d o).1 = 1) ∧
    (∀ (d : SingleConnectionParam) (p : Bool) (o : Option ConnectedAccountRes),
      (ConnectedAccounts.get d p o).1.head? =
        some (Event.telemetry "get" connectedAccountsFile [d.connectedAccountId]) ∧
      countTelemetry "get" (ConnectedAccounts.get d p o).1 = 1) ∧
    (∀ (d : SingleConnectionParam) (p : Bool) (o : Option String),
      (ConnectedAccounts.delete d p o).1.head? =
        some (Event.telemetry "delete" connectedAccountsFile [d.connectedAccountId]) ∧
      countTelemetry "delete" (ConnectedAccounts.delete d p o).1 = 1) ∧
    (∀ (payload : InitiatePayload) (o : InitiateOracle),
      (ConnectedAccounts.initiate payload o).1.head? =
        some (Event.telemetry "initiate" connectedAccountsFile payload.render) ∧
      countTelemetry "initiate" (ConnectedAccounts.initiate payload o).1 = 1) ∧
    (∀ (o : Option (List AppItem)),
      (Apps.list o).1.head? = some (Event.telemetry "list" appsFile []) ∧
      countTelemetry "list" (Apps.list o).1 = 1) ∧
    (∀ (appKey : String) (o : AppsOracle),
      (Apps.get appKey o).1.head? =
        some (Event.telemetry "get" appsFile [appKey]) ∧
      countTelemetry "get" (Apps.get appKey o).1 = 1) ∧
    (∀ (appId : String) (p : Bool) (o : AppsOracle),
      (Apps.getRequiredParams appId p o).1.head? =
        some (Event.telemetry "getRequiredParams" appsFile [appId]) ∧
      countTelemetry "getRequiredParams" (Apps.getRequiredParams appId p o).1 = 1) ∧
    (∀ (appId mode : String) (p2 p : Bool) (o : AppsOracle),
      (Apps.getRequiredParamsForAuthScheme appId mode p2 p o).1.head? =
        some (Event.telemetry "getRequiredParamsForAuthScheme" appsFile
          [appId, mode]) ∧
      countTelemetry "getRequiredParamsForAuthScheme"
        (Apps.getRequiredParamsForAuthScheme appId mode p2 p o).1 = 1) ∧
    (∀ (id : String) (d : SaveUserAccessDataParam) (p : Bool)
        (gc : Option ConnectedAccountRes) (ir : Option InitiateConnectionRes),
      (ConnectionRequest.saveUserAccessData id d p gc ir).1.any isTelemetry
        = false) ∧
    (∀ (d : SingleConnectionParam) (p : Bool) (o : Option String),
      (ConnectionRequest.getAuthInfo d p o).1.any isTelemetry = false) ∧
    (∀ (f : Nat → Option Connection) (t : Nat),
      (ConnectionRequest.waitUntilActive f t).1.any isTelemetry = false) := by
  refine ⟨?_, ?_, ?_, ?_, ?_, ?_, ?_, ?_, ?_, ?_, ?_, ?_⟩
  · intro d o
    simp [ConnectedAccounts.list, countTelemetry]
  · intro d o
    cases o <;> simp [ConnectedAccounts.create, countTelemetry]
  · intro d p o
    cases p <;> cases o <;> simp [ConnectedAccounts.get, countTelemetry]
  · intro d p o
    cases p <;> cases o <;> simp [ConnectedAccounts.delete, countTelemetry]
  · intro payload o
    cases hA : truthy payload.authMode
    · simp [ConnectedAccounts.initiate, hA, countTelemetry]
    · cases hI : truthy payload.integrationId
      · cases hN : truthy payload.appName
        · simp [ConnectedAccounts.initiate, hA, hI, hN, countTelemetry]
        · cases hC : payload.authConfig.isSome
          · simp [ConnectedAccounts.initiate, hA, hI, hN, hC, countTelemetry]
          · cases hG : o.getApp <;>
              simp [ConnectedAccounts.initiate, Apps.get, hA, hI, hN, hC, hG,
                countTelemetry]
      · simp [ConnectedAccounts.initiate, hA, hI, countTelemetry]
  · intro o
    simp [Apps.list, countTelemetry]
  · intro appKey o
    simp [Apps.get, countTelemetry]
  · intro appId p o
    rcases o with ⟨og⟩
    cases p <;> cases og <;>
      simp [Apps.getRequiredParams, Apps.get, countTelemetry]
  · intro appId mode p2 p o
    rcases o with ⟨og⟩
    cases p2 <;> cases p <;> cases og <;>
      simp [Apps.getRequiredParamsForAuthScheme, Apps.getRequiredParams,
        Apps.get, countTelemetry]
  · intro id d p gc ir
    cases p <;> cases gc <;>
      simp [ConnectionRequest.saveUserAccessData, isTelemetry]
  · intro d p o
    cases p <;> simp [ConnectionRequest.getAuthInfo, isTelemetry]
  · intro f t
    exact waitGo_no_telemetry f t 0
